import Mathlib

/-!
Verification of the MCP status reporter core
(`scripts/mcp-status-reporter.js` in the Spotify-echo repository).

The reporter runs one health sweep: it loads a registry of named MCP
servers, probes each one, tallies healthy/failed counts, computes a
health score, classifies an overall status, derives recommendations,
and emits three report artifacts (JSON, markdown, plain-text summary).

The JavaScript source is shallowly embedded below.  JavaScript numbers
appearing here are non-negative integral counts and are modelled as
`Nat`; `Math.round` on the (exact) quotient is modelled by
`jsRound100`.  Fallible effects (module loading, file writes) are
modelled by `Except` values and explicit success flags supplied as an
environment, so that one Lean function of the environment mirrors one
run of the script.
-/

namespace MCPStatus

/-- Overall system status (`determineOverallStatus`, and the initial
`overall_status = unknown` set in the constructor).  The source stores
these as the strings `healthy`, `partial`, `warning`, `degraded`,
`critical`, `unknown`; the string form is recovered by
`statusToString`. -/
inductive OverallStatus where
  | healthy
  | partialStatus
  | warning
  | degraded
  | critical
  | unknown
deriving DecidableEq, Repr

/-- String form of an overall status, as stored in
`this.results.summary.overall_status`. -/
def statusToString : OverallStatus → String
  | .healthy => "healthy"
  | .partialStatus => "partial"
  | .warning => "warning"
  | .degraded => "degraded"
  | .critical => "critical"
  | .unknown => "unknown"

/-- Per-server classification (`serverResult.status` in
`collectMCPServerStatus`): `healthy` when the probe returned true,
`unhealthy` when it returned false, `error` when it threw. -/
inductive ServerStatus where
  | healthy
  | unhealthy
  | error
deriving DecidableEq, Repr

/-- What probing one server does in a given run: the probe resolves to
true after `ms` milliseconds, resolves to false after `ms`
milliseconds, or throws with message `msg`.  This is the environment
seen by the `try`/`catch` around `mcpManager.probeHealth` in
`collectMCPServerStatus` (lines 431-454). -/
inductive ProbeOutcome where
  | ok (ms : Nat)
  | fail (ms : Nat)
  | threw (msg : String)
deriving DecidableEq, Repr

/-- Endpoint configuration of one registered server: the fields of the
registry values that `collectMCPServerStatus` and the markdown renderer
read (`config.port`, `config.healthPath`, `config.command`,
`config.args`).  `none` models an absent (JavaScript `undefined`)
field. -/
structure ServerConfig where
  port : Option Nat := none
  healthPath : Option String := none
  command : Option String := none
  args : List String := []
deriving DecidableEq, Repr

/-- One entry of the loaded registry together with its probe behaviour
in this run (the registry is `await mcpManager.readServers()`; the
probe behaviour is the network environment). -/
structure RegistryEntry where
  name : String
  config : ServerConfig
  outcome : ProbeOutcome
deriving DecidableEq, Repr

/-- The per-server record built by the loop body of
`collectMCPServerStatus` (lines 422-456): status, measured response
time and error message.  `response_time` keeps its initial value 0 when
the probe throws, because the assignment `serverResult.response_time =
Date.now() - startTime` is skipped by the jump to `catch`. -/
structure ServerResult where
  name : String
  config : ServerConfig
  status : ServerStatus
  response_time : Nat
  error_message : Option String
deriving DecidableEq, Repr

/-- The `this.results.summary` record initialized in the constructor
(lines 336-343): all counters 0 and `overall_status = unknown`. -/
structure Summary where
  overall_status : OverallStatus := .unknown
  health_score : Nat := 0
  total_servers : Nat := 0
  healthy_servers : Nat := 0
  failed_servers : Nat := 0
  warnings : Nat := 0
deriving DecidableEq, Repr

/-- The `this.results.components.mcp_servers` component: either the
per-server results object built by the loop, or the object
`\x7b error: error.message \x7d` assigned by the `catch` branch of
`collectMCPServerStatus` (line 472). -/
inductive McpServersComponent where
  | results (entries : List (String × ServerResult))
  | loadError (msg : String)
deriving DecidableEq, Repr

/-- The health-score formula as the spec states it: exact-rational
rounding floor(healthy / total * 100 + 1/2), written with natural
division (`jsRound100_eq_round` below proves it equal to Mathlib
`round` of the rational value).  This is NOT what the program computes:
lines 463-465 evaluate `Math.round((healthy/total)*100)` in IEEE-754
binary64 doubles (`jsHealthScore` below), and the two differ where the
rounding error of the double quotient crosses a half-integer boundary,
e.g. 23 healthy of 40. -/
def jsRound100 (healthy total : Nat) : Nat :=
  (200 * healthy + total) / (2 * total)

/-- A binary floating-point value `mantissa * 2 ^ exponent`.  A
finite binary64 double is such a value with `mantissa < 2 ^ 53`; the
exponent range is left unbounded here, which is faithful for the
health-score expression because every value that arises in it lies in
[0, 100] and differences confined to the subnormal range (below
2^(-1022)) cannot move `Math.round` off 0 (see `jsHealthScore`). -/
structure FpVal where
  mantissa : Nat
  exponent : Int
deriving DecidableEq, Repr

/-- Round-to-nearest integer quotient of `n / d`, ties to even: the
rounding used by every IEEE-754 arithmetic operation in the default
mode JavaScript runs in. -/
def rneDiv (n d : Nat) : Nat :=
  if 2 * (n % d) < d then n / d
  else if d < 2 * (n % d) then n / d + 1
  else if (n / d) % 2 = 0 then n / d else n / d + 1

/-- Fuel-driven floor of the base-2 logarithm of a natural number
(`natLog2` supplies `n` itself as fuel, enough for every `n`); written
with structural recursion so it evaluates inside the kernel. -/
def log2Aux : Nat → Nat → Nat
  | 0, _ => 0
  | fuel + 1, n => if n < 2 then 0 else log2Aux fuel (n / 2) + 1

/-- Floor of the base-2 logarithm of a positive natural number
(`natLog2_bounds` below gives its specification). -/
def natLog2 (n : Nat) : Nat := log2Aux n n

/-- Floor of the base-2 logarithm of the positive rational `a / b`,
computed from the bit lengths of `a` and `b` with one comparison to
settle the off-by-one. -/
def floorLog2 (a b : Nat) : Int :=
  if b * 2 ^ ((natLog2 a : Int) - (natLog2 b : Int)).toNat ≤
      a * 2 ^ (-((natLog2 a : Int) - (natLog2 b : Int))).toNat
  then (natLog2 a : Int) - (natLog2 b : Int)
  else (natLog2 a : Int) - (natLog2 b : Int) - 1

/-- Numerator of `a / b` scaled so that the quotient by `scaledDen`
lies in [2^52, 2^53): the integer that round-to-nearest-even reduces
to a 53-bit significand. -/
def scaledNum (a b : Nat) : Nat := a * 2 ^ ((52 : Int) - floorLog2 a b).toNat

/-- Denominator matching `scaledNum`. -/
def scaledDen (a b : Nat) : Nat := b * 2 ^ (floorLog2 a b - 52).toNat

/-- Round the exact rational `a / b` (with `b > 0`) to the nearest
binary64 double (53-bit significand, round-to-nearest, ties to even):
normalize to a 53-bit window, round the scaled quotient, and
renormalize when rounding carries into 2^53. -/
def rne53 (a b : Nat) : FpVal :=
  if a = 0 then ⟨0, 0⟩
  else if rneDiv (scaledNum a b) (scaledDen a b) = 2 ^ 53 then
    ⟨2 ^ 52, floorLog2 a b - 51⟩
  else ⟨rneDiv (scaledNum a b) (scaledDen a b), floorLog2 a b - 52⟩

/-- Binary64 multiplication of a double by the exactly representable
constant 100: the exact product `mantissa * 100 * 2 ^ exponent` is
rounded back to a 53-bit significand. -/
def fpTimes100 (v : FpVal) : FpVal :=
  ⟨(rne53 (v.mantissa * 100) 1).mantissa,
   (rne53 (v.mantissa * 100) 1).exponent + v.exponent⟩

/-- `Math.round` of a non-negative double, per the ECMAScript
specification: the closest integer, halfway cases toward positive
infinity — exactly floor(x + 1/2), computed here without error on the
dyadic input. -/
def mathRound (v : FpVal) : Nat :=
  if 0 ≤ v.exponent then v.mantissa * 2 ^ v.exponent.toNat
  else (v.mantissa + 2 ^ ((-v.exponent).toNat - 1)) / 2 ^ (-v.exponent).toNat

/-- The health score exactly as lines 463-465 compute it:
`Math.round((healthy_servers / total_servers) * 100)` evaluated in
IEEE-754 binary64 — divide (one rounding), multiply by 100 (one
rounding), then the exact `Math.round`.  Counter operands below 2^53
are themselves exact as doubles (in the program they are bounded by
the registry size).  Example where this differs from the exact
formula: `jsHealthScore 23 40 = 57` while `jsRound100 23 40 = 58`,
because `(23/40)*100` evaluates to 57.49999999999999. -/
def jsHealthScore (healthy total : Nat) : Nat :=
  mathRound (fpTimes100 (rne53 healthy total))

/-- Exact rational value of a binary floating-point value, used to
state and prove bounds about the rounded arithmetic. -/
def FpVal.toRat (v : FpVal) : ℚ := (v.mantissa : ℚ) * (2 : ℚ) ^ v.exponent

/-- Body of the `for (const [name, config] of Object.entries(servers))`
loop in `collectMCPServerStatus`: classify one server from its probe
outcome. -/
def runServer (e : RegistryEntry) : ServerResult :=
  match e.outcome with
  | .ok ms =>
      { name := e.name, config := e.config, status := .healthy,
        response_time := ms, error_message := none }
  | .fail ms =>
      { name := e.name, config := e.config, status := .unhealthy,
        response_time := ms, error_message := some "Health check failed" }
  | .threw msg =>
      { name := e.name, config := e.config, status := .error,
        response_time := 0, error_message := some msg }

/-- The server loop of `collectMCPServerStatus` (lines 419-457): walk
the registry in order, build one `ServerResult` per server, increment
`healthy_servers` for a healthy result and `failed_servers` otherwise
(`unhealthy` and `error` both take the failed branch). -/
def serverLoop : List RegistryEntry → Summary → Summary × List (String × ServerResult)
  | [], s => (s, [])
  | e :: rest, s =>
      let r := runServer e
      let s1 :=
        match r.status with
        | .healthy => { s with healthy_servers := s.healthy_servers + 1 }
        | _ => { s with failed_servers := s.failed_servers + 1 }
      let (s2, entries) := serverLoop rest s1
      (s2, (e.name, r) :: entries)

/-- The whole of `collectMCPServerStatus` (lines 405-475).  On a
successful registry load: set `total_servers`, run the server loop,
then set `health_score = Math.round(healthy/total*100)` only when
`total_servers > 0` (otherwise the score keeps its current value).  If
loading the registry throws (`require` or `readServers`): the `catch`
branch stores the error shape in the component and increments
`warnings`; counters and score are left untouched. -/
def collectMCPServerStatus (s : Summary)
    (load : Except String (List RegistryEntry)) :
    Summary × McpServersComponent :=
  match load with
  | .error msg => ({ s with warnings := s.warnings + 1 }, .loadError msg)
  | .ok servers =>
      let s0 := { s with total_servers := servers.length }
      let (s1, entries) := serverLoop servers s0
      let s2 :=
        if s1.total_servers > 0 then
          { s1 with health_score := jsHealthScore s1.healthy_servers s1.total_servers }
        else s1
      (s2, .results entries)

/-- The ordered threshold classification `determineOverallStatus`
(lines 673-698): an if/else-if chain over the summary counters, first
matching rule wins, writing the result into `overall_status`. -/
def determineOverallStatus (s : Summary) : Summary :=
  let status :=
    if s.failed_servers > s.healthy_servers then OverallStatus.critical
    else if s.health_score < 50 then OverallStatus.degraded
    else if s.warnings > 3 then OverallStatus.warning
    else if s.health_score < 80 then OverallStatus.partialStatus
    else OverallStatus.healthy
  { s with overall_status := status }

/-- Recommendation priority (`priority` field of the objects pushed by
`generateRecommendations`). -/
inductive Priority where
  | high
  | medium
  | low
deriving DecidableEq, Repr

/-- One recommendation object as pushed by `generateRecommendations`
(lines 612-671). -/
structure Recommendation where
  priority : Priority
  category : String
  message : String
  action : String
deriving DecidableEq, Repr

/-- The `config_performance` rating assigned by
`collectPerformanceMetrics` (lines 593-600). -/
inductive PerfRating where
  | excellent
  | good
  | needs_optimization
deriving DecidableEq, Repr

/-- Performance assessment of the configuration-load latency
(`collectPerformanceMetrics`, lines 593-599): strictly below 1000 ms is
excellent, strictly below 3000 ms is good, anything else needs
optimization. -/
def ratePerformance (configLoadTimeMs : Nat) : PerfRating :=
  if configLoadTimeMs < 1000 then .excellent
  else if configLoadTimeMs < 3000 then .good
  else .needs_optimization

/-- The high-priority health recommendation (lines 619-624). -/
def highHealthRec : Recommendation :=
  { priority := .high, category := "health",
    message := "Multiple MCP servers are unhealthy. Investigate server configurations and connectivity.",
    action := "Run `node scripts/mcp-manager.js health` for detailed diagnostics" }

/-- The medium-priority health recommendation (lines 625-631). -/
def mediumHealthRec : Recommendation :=
  { priority := .medium, category := "health",
    message := "Some MCP servers need attention. Consider reviewing server configurations.",
    action := "Check individual server logs and update configurations as needed" }

/-- The performance recommendation (lines 635-642). -/
def performanceRec : Recommendation :=
  { priority := .medium, category := "performance",
    message := "MCP configuration loading is slow. Consider optimizing server startup.",
    action := "Review server initialization and consider caching configurations" }

/-- The missing-workflows recommendation (lines 651-658), naming the
missing workflow files. -/
def workflowsRec (missingWorkflows : List String) : Recommendation :=
  { priority := .medium, category := "workflows",
    message := "Missing required workflows: " ++ String.intercalate ", " missingWorkflows,
    action := "Ensure all MCP validation workflows are properly configured" }

/-- The unconditional maintenance recommendation (lines 662-667). -/
def maintenanceRec : Recommendation :=
  { priority := .low, category := "maintenance",
    message := "Regular MCP system monitoring is active and healthy.",
    action := "Continue scheduled health checks and keep dependencies updated" }

/-- The `generateRecommendations` rule set (lines 612-671), evaluated
in source order over the finalized metrics.  `perf` is
`components.performance?.config_performance` (`none` when the
performance section failed to collect, so the optional chaining yields
`undefined`); `requiredWorkflows` is
`components.workflows.required_workflows` (`none` when the workflow
section failed to collect, so the guard
`workflows && workflows.required_workflows` is falsy). -/
def generateRecommendations (healthScore : Nat) (perf : Option PerfRating)
    (requiredWorkflows : Option (List (String × Bool))) : List Recommendation :=
  let recommendations : List Recommendation := []
  let recommendations :=
    if healthScore < 50 then recommendations ++ [highHealthRec]
    else if healthScore < 80 then recommendations ++ [mediumHealthRec]
    else recommendations
  let recommendations :=
    if perf = some .needs_optimization then recommendations ++ [performanceRec]
    else recommendations
  let recommendations :=
    match requiredWorkflows with
    | some rw =>
        let missingWorkflows := (rw.filter (fun p => !p.2)).map Prod.fst
        if missingWorkflows.length > 0 then recommendations ++ [workflowsRec missingWorkflows]
        else recommendations
    | none => recommendations
  recommendations ++ [maintenanceRec]

/-- Modelled from the spec: the Health Prober `probeHealth(url,
timeoutMs, pollIntervalMs)` is implemented in `scripts/mcp-manager.js`,
which is not part of this source snapshot (only its caller at lines
431-438 is).  Spec section 4.2: issue a request; on failure wait
`pollIntervalMs` and retry, repeating until a success is observed or
the cumulative elapsed time exceeds `timeoutMs`, at which point return
false; network failures never throw.  `responds t` says whether the
request issued at elapsed time `t` (ms) succeeds.  `fuel` bounds the
recursion; `probeHealth` supplies enough fuel for every positive poll
interval. -/
def probeHealthGo (responds : Nat → Bool) (timeoutMs pollIntervalMs : Nat) :
    Nat → Nat → Bool
  | _, 0 => false
  | elapsed, fuel + 1 =>
      if responds elapsed then true
      else if elapsed + pollIntervalMs > timeoutMs then false
      else probeHealthGo responds timeoutMs pollIntervalMs (elapsed + pollIntervalMs) fuel

/-- Modelled from the spec: entry point of the poll-until-timeout probe
(see `probeHealthGo`).  The first attempt happens at elapsed time 0;
with a positive poll interval at most `timeoutMs + 1` attempts can
occur before the elapsed time exceeds `timeoutMs`. -/
def probeHealth (responds : Nat → Bool) (timeoutMs pollIntervalMs : Nat) : Bool :=
  probeHealthGo responds timeoutMs pollIntervalMs 0 (timeoutMs + 1)

/-- Probe URL construction from `collectMCPServerStatus` (line 436):
`http://localhost:` ++ port ++ (`config.healthPath` with default `/health`).  A
missing or empty `healthPath` is falsy in JavaScript, so the default
`/health` is used. -/
def buildHealthUrl (port : Nat) (healthPath : Option String) : String :=
  "http://localhost:" ++ toString port ++
    (match healthPath with
     | some hp => if hp = "" then "/health" else hp
     | none => "/health")

/-- Probe timeout used by the aggregator (line 438:
`mcpManager.probeHealth(url, 5000, 500)`). -/
def aggregatorTimeoutMs : Nat := 5000

/-- Poll interval used by the aggregator (line 438). -/
def aggregatorPollIntervalMs : Nat := 500

/-- The probe call as the aggregator issues it (line 438). -/
def aggregatorProbe (responds : Nat → Bool) : Bool :=
  probeHealth responds aggregatorTimeoutMs aggregatorPollIntervalMs

/-- The finalized `this.results` record as far as the reports read it:
the summary counters, the `mcp_servers` component, the performance
rating, the required-workflows table and the recommendation list.
(`none` components model sections whose collection failed.) -/
structure Results where
  summary : Summary
  mcp_servers : McpServersComponent
  performance : Option PerfRating
  workflows : Option (List (String × Bool))
  recommendations : List Recommendation
deriving DecidableEq, Repr

/-- The structured JSON artifact is
`JSON.stringify(this.results, null, 2)` (line 705): it carries the
finalized results record itself, nothing recomputed. -/
def jsonDocument (r : Results) : Results := r

/-- The values interpolated into the terse summary template
(`generateSummaryReport`, lines 823-838), in template order. -/
structure SummaryView where
  status : OverallStatus
  score : Nat
  healthy : Nat
  total : Nat
  warningCount : Nat
  recommendationCount : Nat
deriving DecidableEq, Repr

/-- Render the terse summary text from its interpolated values,
following the template literal of `generateSummaryReport` (`now` is the
fresh `new Date().toISOString()` of line 825). -/
def renderSummary (now : String) (v : SummaryView) : String :=
  "EchoTune AI - MCP Status Summary\n" ++ now ++ "\n\nOVERALL STATUS: " ++
    (statusToString v.status).toUpper ++ "\nHEALTH SCORE: " ++
    toString v.score ++ "%\n\nSERVERS: " ++ toString v.healthy ++ "/" ++
    toString v.total ++ " healthy\nWARNINGS: " ++ toString v.warningCount ++
    "\nRECOMMENDATIONS: " ++ toString v.recommendationCount ++ "\n\n" ++
    (if v.status = .healthy then "✅ All systems operational"
     else "⚠️ Attention required - see full report") ++ "\n"

/-- The terse plain-text summary (`generateSummaryReport`, lines
823-838): every interpolated number is read from
`this.results.summary` / `this.results.recommendations` of the
finalized results. -/
def generateSummaryReport (now : String) (r : Results) : String :=
  "EchoTune AI - MCP Status Summary\n" ++ now ++ "\n\nOVERALL STATUS: " ++
    (statusToString r.summary.overall_status).toUpper ++ "\nHEALTH SCORE: " ++
    toString r.summary.health_score ++ "%\n\nSERVERS: " ++
    toString r.summary.healthy_servers ++ "/" ++
    toString r.summary.total_servers ++ " healthy\nWARNINGS: " ++
    toString r.summary.warnings ++ "\nRECOMMENDATIONS: " ++
    toString r.recommendations.length ++ "\n\n" ++
    (if r.summary.overall_status = .healthy then "✅ All systems operational"
     else "⚠️ Attention required - see full report") ++ "\n"

/-- The per-server section of the markdown report
(`generateMarkdownReport`, lines 753-762).  For a normal results
component each entry is rendered from its fields
(`server.config.command` prints the JavaScript `undefined` when the
command field is absent).  When the component is the error shape
`\x7b error: message \x7d` written by the `catch` of
`collectMCPServerStatus`, `Object.entries` yields the single entry
`("error", message)` whose value is a string: `server.status`,
`server.response_time` and `server.last_check` then read as
`undefined` without throwing, but `server.config.command` reads
property `command` of `undefined` and throws a `TypeError`, modelled
here as the `Except.error` case. -/
def renderMarkdownServerSection : McpServersComponent → Except String String
  | .results entries =>
      .ok (String.intercalate "\n\n" (entries.map (fun p =>
        "### " ++ p.1 ++ "\n- **Status:** " ++
          (match p.2.status with
           | .healthy => "✅ healthy"
           | .unhealthy => "❓ unhealthy"
           | .error => "❓ error") ++
        "\n- **Response Time:** " ++ toString p.2.response_time ++ "ms" ++
        "\n- **Configuration:** " ++ (p.2.config.command.getD "undefined") ++ " " ++
          String.intercalate " " p.2.config.args ++
        (match p.2.error_message with
         | some msg => "\n- **Error:** " ++ msg
         | none => ""))))
  | .loadError _ =>
      .error "TypeError: Cannot read properties of undefined (reading command)"

/-- String form of the `config_performance` rating. -/
def perfRatingToString : PerfRating → String
  | .excellent => "excellent"
  | .good => "good"
  | .needs_optimization => "needs_optimization"

/-- The performance section of the markdown report (lines 774-778).
After `collectPerformanceMetrics` ran, `components.performance` is
always truthy (either the data shape or the error shape
`\x7b error: message \x7d`), so the template takes the interpolating
branch, and line 776 reads `performance.memory_usage.rss_mb` with no
guard: on the error shape `memory_usage` is `undefined` and reading
`rss_mb` throws a `TypeError`, modelled as the `Except.error` case. -/
def renderMarkdownPerformanceSection : Option PerfRating → Except String String
  | some rating => .ok ("- **Performance Rating:** " ++ perfRatingToString rating)
  | none =>
      .error "TypeError: Cannot read properties of undefined (reading rss_mb)"

/-- The markdown (narrative) report (`generateMarkdownReport`, lines
729-821), reduced to the parts a claim depends on: its header renders
the same finalized status and score as every other artifact, and
building it evaluates the per-server section (line 758) and then the
performance section (line 776), so it propagates the `TypeError` of
either — the per-server one first, matching template evaluation
order. -/
def generateMarkdownReport (r : Results) : Except String String := do
  let serverSection ← renderMarkdownServerSection r.mcp_servers
  let perfSection ← renderMarkdownPerformanceSection r.performance
  pure ("# 🎵 EchoTune AI - MCP System Status Report\n\n**Overall Status:** " ++
    (statusToString r.summary.overall_status).toUpper ++
    "\n**Health Score:** " ++ toString r.summary.health_score ++ "%\n\n" ++
    serverSection ++ "\n\n## ⚡ Performance Metrics\n\n" ++ perfSection)

/-- Success or failure of each filesystem write that `generateReports`
performs, supplied as an environment: the three artifact writes (lines
705, 710, 715) and the two copies to the repository root (lines
725-726). -/
structure WriteEnv where
  writeJsonOk : Bool
  writeMdOk : Bool
  writeSummaryOk : Bool
  copyJsonOk : Bool
  copyMdOk : Bool
deriving DecidableEq, Repr

/-- The environment in which every write succeeds. -/
def allWritesOk : WriteEnv :=
  { writeJsonOk := true, writeMdOk := true, writeSummaryOk := true,
    copyJsonOk := true, copyMdOk := true }

/-- The five persistence operations of `generateReports`, in program
order. -/
inductive Artifact where
  | jsonReport
  | mdReport
  | summaryReport
  | copyJson
  | copyMd
deriving DecidableEq, Repr

instance {ε α : Type} [DecidableEq ε] [DecidableEq α] : DecidableEq (Except ε α) :=
  fun x y =>
    match x, y with
    | .ok a, .ok b =>
        if h : a = b then .isTrue (by rw [h])
        else .isFalse (fun hc => h (Except.ok.inj hc))
    | .error a, .error b =>
        if h : a = b then .isTrue (by rw [h])
        else .isFalse (fun hc => h (Except.error.inj hc))
    | .ok _, .error _ => .isFalse (fun hc => Except.noConfusion hc)
    | .error _, .ok _ => .isFalse (fun hc => Except.noConfusion hc)

/-- Trace of one `generateReports` call: which persistence operations
were attempted (in order), which completed, and the overall outcome
(`ok` with the `this.results.artifacts` list of line 717, or the first
thrown error). -/
structure EmitTrace where
  attempted : List Artifact
  persisted : List Artifact
  result : Except String (List Artifact)
deriving DecidableEq, Repr

/-- Boolean failure test on an emission trace. -/
def resultFailed (t : EmitTrace) : Bool :=
  match t.result with
  | .error _ => true
  | .ok _ => false

/-- The `generateReports` method (lines 700-727) as a sequence of
awaited operations with no per-operation error handling: write the JSON
artifact, build the markdown text (which can itself throw, see
`renderMarkdownServerSection`), write the markdown artifact, write the
summary artifact, record the artifact list, then copy the JSON and
markdown files to the root.  The first operation that fails throws out
of the method: nothing after it is attempted. -/
def generateReports (env : WriteEnv) (r : Results) : EmitTrace :=
  if !env.writeJsonOk then
    { attempted := [.jsonReport], persisted := [],
      result := .error "write mcp-status-report.json failed" }
  else
    match generateMarkdownReport r with
    | .error e =>
        { attempted := [.jsonReport], persisted := [.jsonReport],
          result := .error e }
    | .ok _ =>
        if !env.writeMdOk then
          { attempted := [.jsonReport, .mdReport], persisted := [.jsonReport],
            result := .error "write mcp-status-report.md failed" }
        else if !env.writeSummaryOk then
          { attempted := [.jsonReport, .mdReport, .summaryReport],
            persisted := [.jsonReport, .mdReport],
            result := .error "write mcp-status-summary.txt failed" }
        else if !env.copyJsonOk then
          { attempted := [.jsonReport, .mdReport, .summaryReport, .copyJson],
            persisted := [.jsonReport, .mdReport, .summaryReport],
            result := .error "copy mcp-status-report.json failed" }
        else if !env.copyMdOk then
          { attempted := [.jsonReport, .mdReport, .summaryReport, .copyJson, .copyMd],
            persisted := [.jsonReport, .mdReport, .summaryReport, .copyJson],
            result := .error "copy mcp-status-report.md failed" }
        else
          { attempted := [.jsonReport, .mdReport, .summaryReport, .copyJson, .copyMd],
            persisted := [.jsonReport, .mdReport, .summaryReport, .copyJson, .copyMd],
            result := .ok [.jsonReport, .mdReport, .summaryReport] }

/-- Environment of one `generateFullReport` run (lines 840-863): the
outcome of every effectful collaborator, in program order.  `registry`
is the registry load together with the behaviour of each probe;
`workflows` is the required-workflows scan of `collectWorkflowStatus`;
`perf` is the config-load latency measured by
`collectPerformanceMetrics` (error when that collection throws). -/
structure RunEnv where
  mkdirOk : Bool
  sysInfoOk : Bool
  registry : Except String (List RegistryEntry)
  workflows : Except String (List (String × Bool))
  packagesOk : Bool
  perf : Except String Nat
  writes : WriteEnv

/-- Summary state after the constructor (all fields zero,
`overall_status = unknown`) and `collectSystemInfo` (lines 365-403),
whose only summary effect is `warnings++` when collecting system
information throws. -/
def initSummary (env : RunEnv) : Summary :=
  let s0 : Summary := {}
  if env.sysInfoOk then s0 else { s0 with warnings := s0.warnings + 1 }

/-- The aggregation phase of `generateFullReport` (lines 843-849):
start from the constructor-initialized summary, let each collector
update it (every collector catches its own failure and increments
`warnings`; `collectPerformanceMetrics` also increments `warnings` on a
`needs_optimization` rating, line 599), derive the recommendations,
then classify the overall status. -/
def buildReport (env : RunEnv) : Results :=
  let s1 := initSummary env
  let (s2, serversComp) := collectMCPServerStatus s1 env.registry
  let (s3, workflowsComp) :=
    match env.workflows with
    | .ok rw => (s2, some rw)
    | .error _ => ({ s2 with warnings := s2.warnings + 1 }, none)
  let s4 := if env.packagesOk then s3 else { s3 with warnings := s3.warnings + 1 }
  let (s5, perfComp) :=
    match env.perf with
    | .ok ms =>
        let rating := ratePerformance ms
        (if rating = PerfRating.needs_optimization then
           { s4 with warnings := s4.warnings + 1 }
         else s4,
         some rating)
    | .error _ => ({ s4 with warnings := s4.warnings + 1 }, none)
  let recs := generateRecommendations s5.health_score perfComp workflowsComp
  let s6 := determineOverallStatus s5
  { summary := s6, mcp_servers := serversComp, performance := perfComp,
    workflows := workflowsComp, recommendations := recs }

/-- Boolean success test on an `Except` value. -/
def exceptOk {α : Type} (x : Except String α) : Bool :=
  match x with
  | .ok _ => true
  | .error _ => false

/-- The whole `generateFullReport` method (lines 840-863): `initialize`
creates the report directories (a failure there throws out of the
method), the collectors build the report, and `generateReports`
persists it; the surrounding `try`/`catch` only logs and rethrows, so
the method resolves exactly when nothing in this chain threw. -/
def generateFullReport (env : RunEnv) : Except String Results :=
  if !env.mkdirOk then .error "report directory creation failed"
  else
    let report := buildReport env
    match (generateReports env.writes report).result with
    | .error e => .error e
    | .ok _ => .ok report

/-- The no-argument CLI runner (lines 866-875):
`reporter.generateFullReport().then(() => process.exit(0)).catch(... process.exit(1))`. -/
def runCli (env : RunEnv) : Nat :=
  match generateFullReport env with
  | .ok _ => 0
  | .error _ => 1

/-- Number of registry entries the server loop classifies healthy. -/
def countHealthy (servers : List RegistryEntry) : Nat :=
  (servers.filter (fun e => (runServer e).status = ServerStatus.healthy)).length

/-- Number of registry entries the server loop classifies unhealthy or
error. -/
def countFailed (servers : List RegistryEntry) : Nat :=
  (servers.filter (fun e => ¬ (runServer e).status = ServerStatus.healthy)).length

/-- Whether building the markdown report succeeds for this results
record: it fails exactly when the `mcp_servers` component or the
`performance` component holds the error shape (see
`renderMarkdownServerSection` and
`renderMarkdownPerformanceSection`). -/
def markdownRenderable (r : Results) : Bool :=
  (match r.mcp_servers with
   | .results _ => true
   | .loadError _ => false) && r.performance.isSome

/-- Registry entry with an empty endpoint configuration, used for
concrete scenarios. -/
def mkEntry (n : String) (o : ProbeOutcome) : RegistryEntry :=
  { name := n, config := {}, outcome := o }

/-- Concrete registry of ten services of which exactly three probe
healthy (the threshold scenario of the spec, section 8). -/
def tenServers : List RegistryEntry :=
  [mkEntry "a" (.ok 10), mkEntry "b" (.ok 10), mkEntry "c" (.ok 10),
   mkEntry "d" (.fail 10), mkEntry "e" (.fail 10), mkEntry "f" (.fail 10),
   mkEntry "g" (.fail 10), mkEntry "h" (.fail 10), mkEntry "i" (.fail 10),
   mkEntry "j" (.fail 10)]

/-- Concrete run over `tenServers` in which everything except seven of
the probes succeeds: an unhealthy fleet whose report generation works. -/
def envCritical : RunEnv :=
  { mkdirOk := true, sysInfoOk := true, registry := .ok tenServers,
    workflows := .ok [("mcp-validation.yml", true),
                      ("mcp-validation-gateway.yml", true),
                      ("mcp-scheduled-discovery.yml", true)],
    packagesOk := true, perf := .ok 5, writes := allWritesOk }

/-- Concrete run in which loading `./mcp-manager.js` throws (so both
the registry load and the performance measurement fail) while the
filesystem is fully writable. -/
def envRegistryFails : RunEnv :=
  { mkdirOk := true, sysInfoOk := true,
    registry := .error "Cannot find module ./mcp-manager.js",
    workflows := .ok [("mcp-validation.yml", true),
                      ("mcp-validation-gateway.yml", true),
                      ("mcp-scheduled-discovery.yml", true)],
    packagesOk := true, perf := .error "Cannot find module ./mcp-manager.js",
    writes := allWritesOk }

/-- Concrete registry of forty services of which exactly 23 probe
healthy: the smallest service count at which the binary64 evaluation
of the health score differs from exact-rational rounding. -/
def fortyServers : List RegistryEntry :=
  (List.range 23).map (fun i => mkEntry ("up" ++ toString i) (.ok 1)) ++
    (List.range 17).map (fun i => mkEntry ("down" ++ toString i) (.fail 1))

/-- Concrete run over `fortyServers` with every collaborator
succeeding. -/
def envFortyServers : RunEnv :=
  { mkdirOk := true, sysInfoOk := true, registry := .ok fortyServers,
    workflows := .ok [("mcp-validation.yml", true),
                      ("mcp-validation-gateway.yml", true),
                      ("mcp-scheduled-discovery.yml", true)],
    packagesOk := true, perf := .ok 5, writes := allWritesOk }

/-- Write environment in which only the first artifact write (the
structured JSON report) fails. -/
def envJsonWriteFails : WriteEnv :=
  { allWritesOk with writeJsonOk := false }

/-- A small healthy finalized results record used as a concrete report
in persistence scenarios. -/
def sampleResults : Results :=
  { summary := { overall_status := .healthy, health_score := 100,
                 total_servers := 1, healthy_servers := 1,
                 failed_servers := 0, warnings := 0 },
    mcp_servers := .results
      [("sample", { name := "sample", config := {}, status := .healthy,
                    response_time := 5, error_message := none })],
    performance := some .excellent,
    workflows := some [("mcp-validation.yml", true)],
    recommendations := [maintenanceRec] }

/-- The persistence claim, stated for one write environment and one
report: every one of the three artifact writes is attempted even when
another fails, and the invocation reports failure only when all three
artifact writes fail. -/
def partialFailureTolerant (env : WriteEnv) (r : Results) : Prop :=
  (Artifact.jsonReport ∈ (generateReports env r).attempted ∧
   Artifact.mdReport ∈ (generateReports env r).attempted ∧
   Artifact.summaryReport ∈ (generateReports env r).attempted) ∧
  (resultFailed (generateReports env r) = true →
    env.writeJsonOk = false ∧ env.writeMdOk = false ∧ env.writeSummaryOk = false)

lemma serverLoop_fst (servers : List RegistryEntry) (s : Summary) :
    (serverLoop servers s).1 =
      { s with healthy_servers := s.healthy_servers + countHealthy servers,
               failed_servers := s.failed_servers + countFailed servers } := by
  induction servers generalizing s with
  | nil => simp [serverLoop, countHealthy, countFailed]
  | cons e rest ih =>
      cases h : (runServer e).status <;>
        simp [serverLoop, h, ih, countHealthy, countFailed,
          List.filter_cons, Summary.mk.injEq] <;> omega

lemma serverLoop_snd (servers : List RegistryEntry) (s : Summary) :
    (serverLoop servers s).2 = servers.map (fun e => (e.name, runServer e)) := by
  induction servers generalizing s with
  | nil => simp [serverLoop]
  | cons e rest ih =>
      cases h : (runServer e).status <;> simp [serverLoop, h, ih]

lemma countHealthy_add_countFailed (servers : List RegistryEntry) :
    countHealthy servers + countFailed servers = servers.length := by
  induction servers with
  | nil => simp [countHealthy, countFailed]
  | cons e rest ih =>
      cases h : (runServer e).status <;>
        simp [countHealthy, countFailed, List.filter_cons, h] at ih ⊢ <;> omega

lemma countHealthy_le_length (servers : List RegistryEntry) :
    countHealthy servers ≤ servers.length :=
  List.length_filter_le _ _

lemma collect_ok (s : Summary) (servers : List RegistryEntry) :
    collectMCPServerStatus s (.ok servers) =
      ({ s with total_servers := servers.length,
                healthy_servers := s.healthy_servers + countHealthy servers,
                failed_servers := s.failed_servers + countFailed servers,
                health_score :=
                  if servers.length > 0 then
                    jsHealthScore (s.healthy_servers + countHealthy servers) servers.length
                  else s.health_score },
       .results (servers.map (fun e => (e.name, runServer e)))) := by
  by_cases hl : servers.length > 0 <;>
    simp [collectMCPServerStatus, serverLoop_fst, serverLoop_snd, hl]

lemma jsRound100_eq_round (h t : Nat) (ht : 0 < t) :
    (jsRound100 h t : ℤ) = round ((h : ℚ) / (t : ℚ) * 100) := by
  have htQ : (t : ℚ) ≠ 0 := Nat.cast_ne_zero.mpr ht.ne'
  rw [round_eq]
  have key : (h : ℚ) / (t : ℚ) * 100 + 1 / 2 =
      ((200 * h + t : ℕ) : ℚ) / ((2 * t : ℕ) : ℚ) := by
    push_cast
    field_simp
    ring
  rw [key, Rat.floor_natCast_div_natCast]
  simp [jsRound100, Int.natCast_div]

lemma rneDiv_le (n d : Nat) (hd : 0 < d) :
    (rneDiv n d : ℚ) ≤ (n : ℚ) / d + 1 / 2 := by
  have hdQ : (0 : ℚ) < (d : ℚ) := by exact_mod_cast hd
  have key : (n : ℚ) = (d : ℚ) * ((n / d : Nat) : ℚ) + ((n % d : Nat) : ℚ) := by
    exact_mod_cast congrArg (Nat.cast (R := ℚ)) (Nat.div_add_mod n d).symm
  have hqe : (n : ℚ) / d = ((n / d : Nat) : ℚ) + ((n % d : Nat) : ℚ) / d := by
    rw [key]; field_simp; ring
  unfold rneDiv
  split_ifs with h1 h2 h3
  · have : (0 : ℚ) ≤ ((n % d : Nat) : ℚ) / d := by positivity
    rw [hqe]; linarith
  · have hge : (d : ℚ) ≤ 2 * ((n % d : Nat) : ℚ) := by
      have : (d : ℚ) < 2 * ((n % d : Nat) : ℚ) := by exact_mod_cast h2
      linarith
    have : (1 : ℚ) / 2 ≤ ((n % d : Nat) : ℚ) / d := by
      rw [div_le_div_iff₀ (by norm_num) hdQ]; linarith
    rw [hqe]; push_cast; linarith
  · have : (0 : ℚ) ≤ ((n % d : Nat) : ℚ) / d := by positivity
    rw [hqe]; linarith
  · have heq : (d : ℚ) = 2 * ((n % d : Nat) : ℚ) := by
      have e1 : ¬ 2 * (n % d) < d := h1
      have e2 : ¬ d < 2 * (n % d) := h2
      have : d = 2 * (n % d) := by omega
      exact_mod_cast this
    have : ((n % d : Nat) : ℚ) / d = 1 / 2 := by
      rw [heq]; rw [div_eq_iff (by linarith)]; ring
    rw [hqe]; push_cast; linarith

lemma log2Aux_bounds : ∀ (fuel n : Nat), n ≤ fuel → 0 < n →
    2 ^ log2Aux fuel n ≤ n ∧ n < 2 ^ (log2Aux fuel n + 1)
  | 0, n, hf, hn => by omega
  | fuel + 1, n, hf, hn => by
      unfold log2Aux
      split_ifs with h2
      · constructor <;> simp <;> omega
      · have hm : 0 < n / 2 := by omega
        have hmf : n / 2 ≤ fuel := by omega
        have ih := log2Aux_bounds fuel (n / 2) hmf hm
        constructor
        · calc 2 ^ (log2Aux fuel (n / 2) + 1) = 2 * 2 ^ log2Aux fuel (n / 2) := by
                rw [pow_succ]; ring
            _ ≤ 2 * (n / 2) := by omega
            _ ≤ n := by omega
        · calc n < 2 * (n / 2) + 2 := by omega
            _ ≤ 2 * 2 ^ (log2Aux fuel (n / 2) + 1) := by omega
            _ = 2 ^ (log2Aux fuel (n / 2) + 1 + 1) := by rw [pow_succ]; ring

lemma natLog2_bounds (n : Nat) (hn : 0 < n) :
    2 ^ natLog2 n ≤ n ∧ n < 2 ^ (natLog2 n + 1) :=
  log2Aux_bounds n n le_rfl hn

lemma pow2_le_iff (x : Int) (a b : Nat) (hb : 0 < b) :
    (b * 2 ^ x.toNat ≤ a * 2 ^ (-x).toNat) ↔ (2 : ℚ) ^ x ≤ (a : ℚ) / b := by
  have hbQ : (0 : ℚ) < (b : ℚ) := by exact_mod_cast hb
  rcases le_or_lt 0 x with hx | hx
  · have h1 : (-x).toNat = 0 := by omega
    have h2 : (2 : ℚ) ^ x = ((2 ^ x.toNat : Nat) : ℚ) := by
      push_cast
      rw [← zpow_natCast]
      congr 1
      omega
    rw [h1, h2, le_div_iff₀ hbQ, pow_zero, Nat.mul_one]
    constructor
    · intro h; calc ((2 ^ x.toNat : Nat) : ℚ) * b = ((b * 2 ^ x.toNat : Nat) : ℚ) := by push_cast; ring
        _ ≤ a := by exact_mod_cast h
    · intro h
      have : ((b * 2 ^ x.toNat : Nat) : ℚ) ≤ a := by push_cast at h ⊢; linarith
      exact_mod_cast this
  · have h1 : x.toNat = 0 := by omega
    have h2 : (2 : ℚ) ^ x = (((2 : ℚ)) ^ (-x).toNat)⁻¹ := by
      rw [show ((2:ℚ) ^ (-x).toNat) = (2:ℚ) ^ ((-x).toNat : Int) from (zpow_natCast 2 _).symm]
      rw [← zpow_neg]
      congr 1
      omega
    have hp : (0 : ℚ) < (2 : ℚ) ^ (-x).toNat := by positivity
    rw [h1, h2, pow_zero, Nat.mul_one]
    rw [inv_eq_one_div, div_le_div_iff₀ hp hbQ, one_mul]
    constructor
    · intro h
      calc (b : ℚ) ≤ ((a * 2 ^ (-x).toNat : Nat) : ℚ) := by exact_mod_cast h
        _ = (a : ℚ) * (2 : ℚ) ^ (-x).toNat := by push_cast; ring
    · intro h
      have : (b : ℚ) ≤ ((a * 2 ^ (-x).toNat : Nat) : ℚ) := by push_cast; linarith [h]
      exact_mod_cast this

lemma floorLog2_le (a b : Nat) (ha : 0 < a) (hb : 0 < b) :
    (2 : ℚ) ^ (floorLog2 a b) ≤ (a : ℚ) / b := by
  have hbQ : (0 : ℚ) < (b : ℚ) := by exact_mod_cast hb
  unfold floorLog2
  split_ifs with hc
  · exact (pow2_le_iff _ a b hb).mp hc
  · set d : Int := (natLog2 a : Int) - (natLog2 b : Int) with hd
    have hla : (2 ^ natLog2 a : Nat) ≤ a := (natLog2_bounds a ha).1
    have hlb : b < 2 ^ (natLog2 b + 1) := (natLog2_bounds b hb).2
    have key : (2 : ℚ) ^ (d - 1) ≤ (a : ℚ) / b := by
      rw [le_div_iff₀ hbQ]
      have e1 : (2 : ℚ) ^ (d - 1) * b < (2 : ℚ) ^ (d - 1) * (2 ^ (natLog2 b + 1) : Nat) := by
        have : (b : ℚ) < ((2 ^ (natLog2 b + 1) : Nat) : ℚ) := by exact_mod_cast hlb
        exact mul_lt_mul_of_pos_left this (by positivity)
      have e2 : (2 : ℚ) ^ (d - 1) * ((2 ^ (natLog2 b + 1) : Nat) : ℚ) ≤ a := by
        have cast1 : ((2 ^ (natLog2 b + 1) : Nat) : ℚ) = (2 : ℚ) ^ ((natLog2 b : Int) + 1) := by
          push_cast
          rw [← zpow_natCast]
          congr 1
        rw [cast1, ← zpow_add₀ (by norm_num : (2:ℚ) ≠ 0)]
        have : d - 1 + ((natLog2 b : Int) + 1) = (natLog2 a : Int) := by omega
        rw [this]
        calc (2 : ℚ) ^ (natLog2 a : Int) = ((2 ^ natLog2 a : Nat) : ℚ) := by
              push_cast; rw [← zpow_natCast]
          _ ≤ a := by exact_mod_cast hla
      linarith
    exact key

lemma lt_floorLog2_succ (a b : Nat) (ha : 0 < a) (hb : 0 < b) :
    (a : ℚ) / b < (2 : ℚ) ^ (floorLog2 a b + 1) := by
  have hbQ : (0 : ℚ) < (b : ℚ) := by exact_mod_cast hb
  unfold floorLog2
  split_ifs with hc
  · set d : Int := (natLog2 a : Int) - (natLog2 b : Int) with hd
    have hla : a < 2 ^ (natLog2 a + 1) := (natLog2_bounds a ha).2
    have hlb : (2 ^ natLog2 b : Nat) ≤ b := (natLog2_bounds b hb).1
    rw [div_lt_iff₀ hbQ]
    have e1 : (a : ℚ) < ((2 ^ (natLog2 a + 1) : Nat) : ℚ) := by exact_mod_cast hla
    have e2 : ((2 ^ (natLog2 a + 1) : Nat) : ℚ) ≤ (2 : ℚ) ^ (d + 1) * b := by
      have cast1 : ((2 ^ (natLog2 a + 1) : Nat) : ℚ) = (2 : ℚ) ^ ((natLog2 a : Int) + 1) := by
        push_cast
        rw [← zpow_natCast]
        congr 1
      have cast2 : ((2 ^ natLog2 b : Nat) : ℚ) = (2 : ℚ) ^ (natLog2 b : Int) := by
        push_cast
        rw [← zpow_natCast]
      have e3 : (2 : ℚ) ^ (natLog2 b : Int) ≤ b := by
        rw [← cast2]; exact_mod_cast hlb
      have e4 : (2 : ℚ) ^ ((natLog2 a : Int) + 1) =
          (2 : ℚ) ^ (d + 1) * (2 : ℚ) ^ (natLog2 b : Int) := by
        rw [← zpow_add₀ (by norm_num : (2:ℚ) ≠ 0)]
        congr 1
        omega
      rw [cast1, e4]
      exact mul_le_mul_of_nonneg_left e3 (by positivity)
    linarith
  · have := (pow2_le_iff _ a b hb).not.mp hc
    push_neg at this
    have e : (natLog2 a : Int) - (natLog2 b : Int) - 1 + 1 =
        (natLog2 a : Int) - (natLog2 b : Int) := by omega
    rw [e]
    exact this

lemma scaled_ratio (a b : Nat) (hb : 0 < b) :
    (scaledNum a b : ℚ) / (scaledDen a b) =
      (a : ℚ) / b * (2 : ℚ) ^ ((52 : Int) - floorLog2 a b) := by
  have hbQ : (0 : ℚ) < (b : ℚ) := by exact_mod_cast hb
  unfold scaledNum scaledDen
  rcases le_or_lt (floorLog2 a b) 52 with hf | hf
  · have h1 : (floorLog2 a b - 52).toNat = 0 := by omega
    have h2 : (2 : ℚ) ^ ((52 : Int) - floorLog2 a b) =
        (2 : ℚ) ^ (((52 : Int) - floorLog2 a b).toNat) := by
      rw [← zpow_natCast]
      congr 1
      omega
    rw [h1, h2]
    push_cast
    field_simp
  · have h1 : ((52 : Int) - floorLog2 a b).toNat = 0 := by omega
    have h2 : (2 : ℚ) ^ ((52 : Int) - floorLog2 a b) =
        ((2 : ℚ) ^ ((floorLog2 a b - 52).toNat))⁻¹ := by
      rw [show ((2 : ℚ) ^ ((floorLog2 a b - 52).toNat)) =
            (2 : ℚ) ^ (((floorLog2 a b - 52).toNat : Int)) from (zpow_natCast _ _).symm,
          ← zpow_neg]
      congr 1
      omega
    rw [h1, h2]
    push_cast
    have hp : ((2 : ℚ) ^ ((floorLog2 a b - 52).toNat)) ≠ 0 := by positivity
    field_simp

lemma rne53_toRat (a b : Nat) (ha : 0 < a) :
    (rne53 a b).toRat =
      (rneDiv (scaledNum a b) (scaledDen a b) : ℚ) * (2 : ℚ) ^ (floorLog2 a b - 52) := by
  unfold rne53
  rw [if_neg (by omega : ¬ a = 0)]
  split_ifs with hm
  · unfold FpVal.toRat
    dsimp only
    rw [hm]
    rw [Nat.cast_pow, Nat.cast_pow, show ((2 : ℕ) : ℚ) = (2 : ℚ) from by norm_num]
    rw [← zpow_natCast (2 : ℚ) 52, ← zpow_natCast (2 : ℚ) 53,
      ← zpow_add₀ (by norm_num : (2:ℚ) ≠ 0), ← zpow_add₀ (by norm_num : (2:ℚ) ≠ 0)]
    congr 1
    omega
  · unfold FpVal.toRat
    rfl

lemma scaledDen_pos (a b : Nat) (hb : 0 < b) : 0 < scaledDen a b :=
  Nat.mul_pos hb (Nat.pos_pow_of_pos _ (by norm_num))

lemma rne53_le (a b : Nat) (hb : 0 < b) :
    (rne53 a b).toRat ≤ (a : ℚ) / b + (2 : ℚ) ^ (floorLog2 a b - 53) := by
  rcases Nat.eq_zero_or_pos a with ha | ha
  · subst ha
    have h0 : (rne53 0 b).toRat = 0 := by
      unfold rne53 FpVal.toRat
      simp
    rw [h0]
    positivity
  · rw [rne53_toRat a b ha]
    have hD : 0 < scaledDen a b := scaledDen_pos a b hb
    calc (rneDiv (scaledNum a b) (scaledDen a b) : ℚ) * (2 : ℚ) ^ (floorLog2 a b - 52)
        ≤ ((scaledNum a b : ℚ) / (scaledDen a b) + 1 / 2) * (2 : ℚ) ^ (floorLog2 a b - 52) := by
          exact mul_le_mul_of_nonneg_right (rneDiv_le _ _ hD) (by positivity)
      _ = (scaledNum a b : ℚ) / (scaledDen a b) * (2 : ℚ) ^ (floorLog2 a b - 52) +
            (2 : ℚ) ^ (floorLog2 a b - 53) := by
          rw [add_mul]
          congr 1
          rw [show (1 : ℚ) / 2 = (2 : ℚ) ^ (-1 : Int) from by norm_num,
            ← zpow_add₀ (by norm_num : (2:ℚ) ≠ 0)]
          congr 1
          omega
      _ = (a : ℚ) / b * ((2 : ℚ) ^ ((52 : Int) - floorLog2 a b) *
            (2 : ℚ) ^ (floorLog2 a b - 52)) + (2 : ℚ) ^ (floorLog2 a b - 53) := by
          rw [scaled_ratio a b hb, mul_assoc]
      _ = (a : ℚ) / b + (2 : ℚ) ^ (floorLog2 a b - 53) := by
          rw [← zpow_add₀ (by norm_num : (2:ℚ) ≠ 0)]
          norm_num

lemma rne53_mantissa_lt (a b : Nat) (hb : 0 < b) : (rne53 a b).mantissa < 2 ^ 53 := by
  rcases Nat.eq_zero_or_pos a with ha | ha
  · subst ha
    unfold rne53
    simp
  · have hD : 0 < scaledDen a b := scaledDen_pos a b hb
    have hbQ : (0 : ℚ) < (b : ℚ) := by exact_mod_cast hb
    have hND : (scaledNum a b : ℚ) / (scaledDen a b) < (2 : ℚ) ^ (53 : ℕ) := by
      rw [scaled_ratio a b hb]
      calc (a : ℚ) / b * (2 : ℚ) ^ ((52 : Int) - floorLog2 a b)
          < (2 : ℚ) ^ (floorLog2 a b + 1) * (2 : ℚ) ^ ((52 : Int) - floorLog2 a b) := by
            exact mul_lt_mul_of_pos_right (lt_floorLog2_succ a b ha hb) (by positivity)
        _ = (2 : ℚ) ^ (53 : ℕ) := by
            rw [← zpow_add₀ (by norm_num : (2:ℚ) ≠ 0), ← zpow_natCast (2 : ℚ) 53]
            congr 1
            omega
    have hm : (rneDiv (scaledNum a b) (scaledDen a b) : ℚ) < (2 : ℚ) ^ (53 : ℕ) + 1 := by
      have := rneDiv_le (scaledNum a b) (scaledDen a b) hD
      linarith
    have hmN : rneDiv (scaledNum a b) (scaledDen a b) < 2 ^ 53 + 1 := by
      exact_mod_cast hm
    unfold rne53
    rw [if_neg (by omega : ¬ a = 0)]
    split_ifs with heq
    · norm_num
    · simpa using by omega

lemma rne53_exponent_le (a b : Nat) (ha : 0 < a) :
    (rne53 a b).exponent ≤ floorLog2 a b - 51 := by
  unfold rne53
  rw [if_neg (by omega : ¬ a = 0)]
  split_ifs <;> dsimp only <;> omega

lemma floorLog2_nonpos (a b : Nat) (ha : 0 < a) (hab : a ≤ b) :
    floorLog2 a b ≤ 0 := by
  have hb : 0 < b := lt_of_lt_of_le ha hab
  have hbQ : (0 : ℚ) < (b : ℚ) := by exact_mod_cast hb
  by_contra hcon
  push_neg at hcon
  have h1 : (2 : ℚ) ^ (floorLog2 a b) ≤ (a : ℚ) / b := floorLog2_le a b ha hb
  have h2 : (a : ℚ) / b ≤ 1 := by
    rw [div_le_one hbQ]
    exact_mod_cast hab
  have h3 : (2 : ℚ) ^ (0 : Int) ≤ (2 : ℚ) ^ (floorLog2 a b) :=
    zpow_le_zpow_right₀ (by norm_num) (by omega)
  rw [zpow_zero] at h3
  have h4 : (2 : ℚ) ^ (1 : Int) ≤ (2 : ℚ) ^ (floorLog2 a b) :=
    zpow_le_zpow_right₀ (by norm_num) (by omega)
  have : (2 : ℚ) ^ (1 : Int) = 2 := by norm_num
  linarith

lemma floorLog2_lt_pow (a k : Nat) (ha : 0 < a) (hk : a < 2 ^ k) :
    floorLog2 a 1 < k := by
  by_contra hcon
  push_neg at hcon
  have h1 : (2 : ℚ) ^ (floorLog2 a 1) ≤ (a : ℚ) / 1 := floorLog2_le a 1 ha one_pos
  rw [div_one] at h1
  have h2 : (2 : ℚ) ^ ((k : Nat) : Int) ≤ (2 : ℚ) ^ (floorLog2 a 1) :=
    zpow_le_zpow_right₀ (by norm_num) (by exact_mod_cast hcon)
  have h3 : (2 : ℚ) ^ ((k : Nat) : Int) = ((2 ^ k : ℕ) : ℚ) := by
    push_cast
    rw [← zpow_natCast]
  have h4 : ((2 ^ k : ℕ) : ℚ) ≤ (a : ℚ) := by
    rw [← h3]
    linarith
  have : (2 ^ k : ℕ) ≤ a := by exact_mod_cast h4
  omega

lemma mathRound_le (v : FpVal) : (mathRound v : ℚ) ≤ v.toRat + 1 / 2 := by
  unfold mathRound FpVal.toRat
  split_ifs with he
  · have heq : ((v.mantissa * 2 ^ v.exponent.toNat : ℕ) : ℚ) =
        (v.mantissa : ℚ) * (2 : ℚ) ^ v.exponent := by
      push_cast
      rw [← zpow_natCast, Int.toNat_of_nonneg he]
    rw [heq]
    linarith
  · have hk : 1 ≤ (-v.exponent).toNat := by omega
    have hcast : ((v.mantissa + 2 ^ ((-v.exponent).toNat - 1)) / 2 ^ (-v.exponent).toNat : ℕ) ≤
        (((v.mantissa + 2 ^ ((-v.exponent).toNat - 1) : ℕ) : ℚ)) /
          ((2 ^ (-v.exponent).toNat : ℕ) : ℚ) := Nat.cast_div_le
    have hzpow : ((2 : ℚ) ^ (-v.exponent).toNat)⁻¹ = (2 : ℚ) ^ v.exponent := by
      rw [show ((2 : ℚ) ^ (-v.exponent).toNat) =
            (2 : ℚ) ^ (((-v.exponent).toNat : Int)) from (zpow_natCast _ _).symm,
          ← zpow_neg]
      congr 1
      omega
    have h2k : (2 ^ (-v.exponent).toNat : ℕ) = 2 * 2 ^ ((-v.exponent).toNat - 1) := by
      rw [← pow_succ']
      congr 1
      omega
    have hsplit : (((v.mantissa + 2 ^ ((-v.exponent).toNat - 1) : ℕ) : ℚ)) /
        ((2 ^ (-v.exponent).toNat : ℕ) : ℚ) =
        (v.mantissa : ℚ) * (2 : ℚ) ^ v.exponent + 1 / 2 := by
      rw [← hzpow]
      have hk2 : ((2 : ℚ)) ^ (-v.exponent).toNat = 2 * 2 ^ ((-v.exponent).toNat - 1) := by
        exact_mod_cast congrArg (Nat.cast (R := ℚ)) h2k
      have hnz : ((2 : ℚ) ^ ((-v.exponent).toNat - 1)) ≠ 0 := by positivity
      push_cast
      rw [hk2]
      field_simp
      ring
    rw [hsplit] at hcast
    exact hcast

lemma fpTimes100_toRat (v : FpVal) :
    (fpTimes100 v).toRat = (rne53 (v.mantissa * 100) 1).toRat * (2 : ℚ) ^ v.exponent := by
  unfold fpTimes100 FpVal.toRat
  dsimp only
  rw [zpow_add₀ (by norm_num : (2:ℚ) ≠ 0)]
  ring

lemma jsHealthScore_le_100 (h t : Nat) (hht : h ≤ t) (ht : 0 < t) :
    jsHealthScore h t ≤ 100 := by
  rcases Nat.eq_zero_or_pos h with h0 | hpos
  · subst h0
    show mathRound (fpTimes100 (rne53 0 t)) ≤ 100
    norm_num [rne53, fpTimes100, mathRound, rneDiv, scaledNum, scaledDen]
  · have htQ : (0 : ℚ) < (t : ℚ) := by exact_mod_cast ht
    have hd1top : (rne53 h t).toRat ≤ 1 + (2 : ℚ) ^ (-53 : Int) := by
      have b1 := rne53_le h t ht
      have b2 : (h : ℚ) / t ≤ 1 := by
        rw [div_le_one htQ]
        exact_mod_cast hht
      have b3 : (2 : ℚ) ^ (floorLog2 h t - 53) ≤ (2 : ℚ) ^ (-53 : Int) :=
        zpow_le_zpow_right₀ (by norm_num)
          (by have := floorLog2_nonpos h t hpos hht; omega)
      linarith
    have hm1 : (rne53 h t).mantissa < 2 ^ 53 := rne53_mantissa_lt h t ht
    have he1 : (rne53 h t).exponent ≤ -51 := by
      have := rne53_exponent_le h t hpos
      have := floorLog2_nonpos h t hpos hht
      omega
    have hg : floorLog2 ((rne53 h t).mantissa * 100) 1 ≤ 59 := by
      rcases Nat.eq_zero_or_pos (rne53 h t).mantissa with hm0 | hmpos
      · rw [hm0]
        decide
      · have hlt : (rne53 h t).mantissa * 100 < 2 ^ 60 := by
          have : (rne53 h t).mantissa * 100 ≤ (2 ^ 53 - 1) * 100 :=
            Nat.mul_le_mul_right 100 (by omega)
          calc (rne53 h t).mantissa * 100 ≤ (2 ^ 53 - 1) * 100 := this
            _ < 2 ^ 60 := by norm_num
        have := floorLog2_lt_pow ((rne53 h t).mantissa * 100) 60
          (by positivity) hlt
        omega
    have hw := rne53_le ((rne53 h t).mantissa * 100) 1 one_pos
    have hpowe1 : (0 : ℚ) < (2 : ℚ) ^ (rne53 h t).exponent := by positivity
    have hscore := mathRound_le (fpTimes100 (rne53 h t))
    rw [fpTimes100_toRat] at hscore
    have step : (rne53 ((rne53 h t).mantissa * 100) 1).toRat * (2 : ℚ) ^ (rne53 h t).exponent ≤
        (((rne53 h t).mantissa * 100 : ℕ) : ℚ) * (2 : ℚ) ^ (rne53 h t).exponent +
          (2 : ℚ) ^ (floorLog2 ((rne53 h t).mantissa * 100) 1 - 53 + (rne53 h t).exponent) := by
      calc (rne53 ((rne53 h t).mantissa * 100) 1).toRat * (2 : ℚ) ^ (rne53 h t).exponent
          ≤ ((((rne53 h t).mantissa * 100 : ℕ) : ℚ) / 1 +
              (2 : ℚ) ^ (floorLog2 ((rne53 h t).mantissa * 100) 1 - 53)) *
              (2 : ℚ) ^ (rne53 h t).exponent :=
            mul_le_mul_of_nonneg_right hw (le_of_lt hpowe1)
        _ = (((rne53 h t).mantissa * 100 : ℕ) : ℚ) * (2 : ℚ) ^ (rne53 h t).exponent +
              (2 : ℚ) ^ (floorLog2 ((rne53 h t).mantissa * 100) 1 - 53 + (rne53 h t).exponent) := by
            rw [div_one, add_mul, ← zpow_add₀ (by norm_num : (2:ℚ) ≠ 0)]
    have h100 : (((rne53 h t).mantissa * 100 : ℕ) : ℚ) * (2 : ℚ) ^ (rne53 h t).exponent =
        100 * (rne53 h t).toRat := by
      unfold FpVal.toRat
      push_cast
      ring
    have hgap : (2 : ℚ) ^ (floorLog2 ((rne53 h t).mantissa * 100) 1 - 53 + (rne53 h t).exponent) ≤
        (2 : ℚ) ^ (-45 : Int) :=
      zpow_le_zpow_right₀ (by norm_num) (by omega)
    have hb1 : 100 * (rne53 h t).toRat ≤ 100 * (1 + (2 : ℚ) ^ (-53 : Int)) := by
      linarith
    have hnum : 100 * (1 + (2 : ℚ) ^ (-53 : Int)) + (2 : ℚ) ^ (-45 : Int) + 1 / 2 < 101 := by
      have c53 : (2 : ℚ) ^ (-53 : Int) = ((2 : ℚ) ^ (53 : ℕ))⁻¹ := by
        rw [show ((2 : ℚ) ^ (53 : ℕ)) = (2 : ℚ) ^ ((53 : ℕ) : Int) from (zpow_natCast _ _).symm,
          ← zpow_neg]
        norm_num
      have c45 : (2 : ℚ) ^ (-45 : Int) = ((2 : ℚ) ^ (45 : ℕ))⁻¹ := by
        rw [show ((2 : ℚ) ^ (45 : ℕ)) = (2 : ℚ) ^ ((45 : ℕ) : Int) from (zpow_natCast _ _).symm,
          ← zpow_neg]
        norm_num
      rw [c53, c45]
      norm_num
    have k1 : ((mathRound (fpTimes100 (rne53 h t)) : ℕ) : ℚ) ≤
        100 * (rne53 h t).toRat +
          (2 : ℚ) ^ (floorLog2 ((rne53 h t).mantissa * 100) 1 - 53 + (rne53 h t).exponent) +
          1 / 2 := by linarith
    have k2 : 100 * (rne53 h t).toRat +
        (2 : ℚ) ^ (floorLog2 ((rne53 h t).mantissa * 100) 1 - 53 + (rne53 h t).exponent) +
        1 / 2 < 101 :=
      lt_of_le_of_lt (add_le_add (add_le_add hb1 hgap) (le_refl (1 / 2))) hnum
    have final : ((mathRound (fpTimes100 (rne53 h t)) : ℕ) : ℚ) < 101 := by
      linarith
    have : mathRound (fpTimes100 (rne53 h t)) < 101 := by exact_mod_cast final
    show mathRound (fpTimes100 (rne53 h t)) ≤ 100
    omega

lemma initSummary_fields (env : RunEnv) :
    (initSummary env).overall_status = OverallStatus.unknown ∧
    (initSummary env).health_score = 0 ∧
    (initSummary env).total_servers = 0 ∧
    (initSummary env).healthy_servers = 0 ∧
    (initSummary env).failed_servers = 0 := by
  cases h : env.sysInfoOk <;> simp [initSummary, h]

lemma entries_filter_healthy (servers : List RegistryEntry) :
    ((servers.map (fun e => (e.name, runServer e))).filter
      (fun p => p.2.status = ServerStatus.healthy)).length = countHealthy servers := by
  induction servers with
  | nil => simp [countHealthy]
  | cons e rest ih =>
      by_cases h : (runServer e).status = ServerStatus.healthy <;>
        simp [countHealthy, List.filter_cons, h] at ih ⊢ <;> omega

lemma entries_filter_failed (servers : List RegistryEntry) :
    ((servers.map (fun e => (e.name, runServer e))).filter
      (fun p => p.2.status = ServerStatus.unhealthy ∨
                p.2.status = ServerStatus.error)).length = countFailed servers := by
  induction servers with
  | nil => simp [countFailed]
  | cons e rest ih =>
      cases h : (runServer e).status <;>
        simp [countFailed, List.filter_cons, h] at ih ⊢ <;> omega

lemma probeHealthGo_neverResponds (responds : Nat → Bool)
    (hres : ∀ t, responds t = false) (timeoutMs pollIntervalMs : Nat) :
    ∀ (fuel elapsed : Nat),
      probeHealthGo responds timeoutMs pollIntervalMs elapsed fuel = false := by
  intro fuel
  induction fuel with
  | zero => intro elapsed; rfl
  | succ n ih =>
      intro elapsed
      simp only [probeHealthGo, hres, if_false, Bool.false_eq_true]
      split
      · rfl
      · exact ih _

lemma buildReport_summary_fields (env : RunEnv) :
    (buildReport env).summary.health_score =
      (collectMCPServerStatus (initSummary env) env.registry).1.health_score ∧
    (buildReport env).summary.total_servers =
      (collectMCPServerStatus (initSummary env) env.registry).1.total_servers ∧
    (buildReport env).summary.healthy_servers =
      (collectMCPServerStatus (initSummary env) env.registry).1.healthy_servers ∧
    (buildReport env).summary.failed_servers =
      (collectMCPServerStatus (initSummary env) env.registry).1.failed_servers ∧
    (buildReport env).mcp_servers =
      (collectMCPServerStatus (initSummary env) env.registry).2 := by
  cases hw : env.workflows <;> cases hp : env.perf <;>
    cases hpk : env.packagesOk <;>
    simp [buildReport, determineOverallStatus, hw, hp, hpk] <;>
    split_ifs <;> simp

/-- C1: `overallStatus` is determined by an ordered threshold
evaluation in which the first matching rule wins — `failedCount >
healthyCount` gives critical; else `healthScore < 50` gives degraded;
else `warningCount > 3` gives warning; else `healthScore < 80` gives
partial; else healthy — and a run with 10 services of which 3 are
healthy is classified critical. -/
theorem overallStatus_thresholds :
    (∀ s : Summary, s.failed_servers > s.healthy_servers →
      (determineOverallStatus s).overall_status = OverallStatus.critical) ∧
    (∀ s : Summary, ¬ s.failed_servers > s.healthy_servers →
      s.health_score < 50 →
      (determineOverallStatus s).overall_status = OverallStatus.degraded) ∧
    (∀ s : Summary, ¬ s.failed_servers > s.healthy_servers →
      ¬ s.health_score < 50 → s.warnings > 3 →
      (determineOverallStatus s).overall_status = OverallStatus.warning) ∧
    (∀ s : Summary, ¬ s.failed_servers > s.healthy_servers →
      ¬ s.health_score < 50 → ¬ s.warnings > 3 → s.health_score < 80 →
      (determineOverallStatus s).overall_status = OverallStatus.partialStatus) ∧
    (∀ s : Summary, ¬ s.failed_servers > s.healthy_servers →
      ¬ s.health_score < 50 → ¬ s.warnings > 3 → ¬ s.health_score < 80 →
      (determineOverallStatus s).overall_status = OverallStatus.healthy) ∧
    (buildReport envCritical).summary.total_servers = 10 ∧
    (buildReport envCritical).summary.healthy_servers = 3 ∧
    (buildReport envCritical).summary.failed_servers = 7 ∧
    (buildReport envCritical).summary.overall_status = OverallStatus.critical := by
  refine ⟨?_, ?_, ?_, ?_, ?_, by decide, by decide, by decide, by decide⟩ <;>
    intro s <;> intros <;> simp only [determineOverallStatus] <;>
    split_ifs <;> first | rfl | (exfalso; omega)

/-- Witness for C1: the first threshold rule applied at a concrete
summary with 7 failed and 3 healthy servers. -/
theorem overallStatus_thresholds_witness :
    (determineOverallStatus
      { overall_status := .unknown, health_score := 30, total_servers := 10,
        healthy_servers := 3, failed_servers := 7,
        warnings := 0 }).overall_status = OverallStatus.critical :=
  overallStatus_thresholds.1 _ (by decide)

/-- C2 counterexample: on the run with 40 registered services of which
23 probe healthy, the program (evaluating
`Math.round((healthy/total)*100)` in binary64, where `(23/40)*100`
comes out just below 57.5) reports a health score of 57, while the
exact-rational formula of the claim, round(23/40 * 100) = round(57.5),
yields 58. -/
theorem healthScore_formula_counterexample :
    (buildReport envFortyServers).summary.total_servers = 40 ∧
    (buildReport envFortyServers).summary.healthy_servers = 23 ∧
    (buildReport envFortyServers).summary.health_score = 57 ∧
    round (((buildReport envFortyServers).summary.healthy_servers : ℚ) /
           ((buildReport envFortyServers).summary.total_servers : ℚ) * 100) = 58 ∧
    (57 : ℤ) ≠ 58 := by
  have h1 : (buildReport envFortyServers).summary.healthy_servers = 23 := by decide
  have h2 : (buildReport envFortyServers).summary.total_servers = 40 := by decide
  refine ⟨h2, h1, by decide, ?_, by decide⟩
  rw [h1, h2, ← jsRound100_eq_round 23 40 (by norm_num)]
  decide

/-- C2 as amended: for every run, `healthScore` equals the IEEE-754
binary64 evaluation of `Math.round((healthyCount/totalServices)*100)`
when `totalServices > 0` (which can differ from the exact-rational
rounding of the original claim at halfway points, e.g. 23 healthy of
40 gives 57, not 58), equals 0 when `totalServices = 0`, and is always
an integer in [0, 100]. -/
theorem healthScore_formula (env : RunEnv) :
    ((buildReport env).summary.total_servers = 0 →
      (buildReport env).summary.health_score = 0) ∧
    (0 < (buildReport env).summary.total_servers →
      (buildReport env).summary.health_score =
        jsHealthScore (buildReport env).summary.healthy_servers
          (buildReport env).summary.total_servers) ∧
    (buildReport env).summary.health_score ≤ 100 := by
  obtain ⟨hsc, hto, hhe, hfa, -⟩ := buildReport_summary_fields env
  obtain ⟨-, hisc, hito, hihe, -⟩ := initSummary_fields env
  rw [hsc, hto, hhe]
  cases hreg : env.registry with
  | error msg =>
      refine ⟨fun _ => ?_, fun h0 => absurd h0 ?_, ?_⟩ <;>
        simp [collectMCPServerStatus, hisc, hito]
  | ok servers =>
      rw [collect_ok]
      rcases Nat.eq_zero_or_pos servers.length with hl | hl
      · refine ⟨fun _ => ?_, fun h0 => ?_, ?_⟩ <;>
          simp_all [hisc, hito]
      · have hle : countHealthy servers ≤ servers.length :=
          countHealthy_le_length servers
        refine ⟨fun h0 => ?_, fun _ => ?_, ?_⟩
        · simp_all
        · simp [hl, hihe]
        · simp only [hl, if_pos, hihe, Nat.zero_add]
          exact jsHealthScore_le_100 _ _ hle hl

/-- Witness for the amended C2: the double-rounding formula and the
bound evaluated on the concrete ten-server run (3 healthy of 10,
score 30). -/
theorem healthScore_formula_witness :
    0 < (buildReport envCritical).summary.total_servers ∧
    (buildReport envCritical).summary.health_score =
      jsHealthScore (buildReport envCritical).summary.healthy_servers
        (buildReport envCritical).summary.total_servers ∧
    (buildReport envCritical).summary.health_score ≤ 100 :=
  ⟨by decide, (healthScore_formula envCritical).2.1 (by decide),
    (healthScore_formula envCritical).2.2⟩

/-- C3: for every registry of N services whose load succeeds, the
per-service results mapping has exactly N entries with distinct names,
each classified healthy, unhealthy or error; `healthyCount` counts
exactly the healthy entries and `failedCount` exactly the unhealthy or
error entries, so `healthyCount + failedCount = N`. -/
theorem perServiceResults_counts (env : RunEnv) (servers : List RegistryEntry)
    (hreg : env.registry = Except.ok servers)
    (hnames : (servers.map RegistryEntry.name).Nodup) :
    (buildReport env).mcp_servers =
      McpServersComponent.results (servers.map (fun e => (e.name, runServer e))) ∧
    (servers.map (fun e => (e.name, runServer e))).length = servers.length ∧
    ((servers.map (fun e => (e.name, runServer e))).map Prod.fst).Nodup ∧
    (buildReport env).summary.healthy_servers =
      ((servers.map (fun e => (e.name, runServer e))).filter
        (fun p => p.2.status = ServerStatus.healthy)).length ∧
    (buildReport env).summary.failed_servers =
      ((servers.map (fun e => (e.name, runServer e))).filter
        (fun p => p.2.status = ServerStatus.unhealthy ∨
                  p.2.status = ServerStatus.error)).length ∧
    (buildReport env).summary.healthy_servers +
      (buildReport env).summary.failed_servers = servers.length ∧
    (∀ p ∈ servers.map (fun e => (e.name, runServer e)),
      p.2.status = ServerStatus.healthy ∨ p.2.status = ServerStatus.unhealthy ∨
        p.2.status = ServerStatus.error) := by
  obtain ⟨-, -, hhe, hfa, hcomp⟩ := buildReport_summary_fields env
  obtain ⟨-, -, -, hihe, hifa⟩ := initSummary_fields env
  rw [hhe, hfa, hcomp, hreg, collect_ok]
  refine ⟨by simp, by simp, ?_, ?_, ?_, ?_, ?_⟩
  · simpa [Function.comp] using hnames
  · simp [entries_filter_healthy, hihe]
  · simp only [hifa, Nat.zero_add]
    exact (entries_filter_failed servers).symm
  · simp only [hihe, hifa, Nat.zero_add]
    exact countHealthy_add_countFailed servers
  · intro p hp
    cases p.2.status <;> simp

/-- Witness for C3: the counting invariants evaluated on the concrete
ten-server registry. -/
theorem perServiceResults_counts_witness :
    (buildReport envCritical).summary.healthy_servers +
      (buildReport envCritical).summary.failed_servers = tenServers.length :=
  (perServiceResults_counts envCritical tenServers rfl (by decide)).2.2.2.2.2.1

/-- C10: a run with zero registered services — the registry load
returned an empty mapping or threw — has `healthyCount`, `failedCount`
and `healthScore` all 0, and the threshold rules classify it degraded
(never healthy), for every prior warning count. -/
theorem zeroServices_degraded (w : Nat) (msg : String) :
    ((collectMCPServerStatus { warnings := w } (Except.error msg)).1.healthy_servers = 0 ∧
     (collectMCPServerStatus { warnings := w } (Except.error msg)).1.failed_servers = 0 ∧
     (collectMCPServerStatus { warnings := w } (Except.error msg)).1.health_score = 0 ∧
     (determineOverallStatus
       (collectMCPServerStatus { warnings := w } (Except.error msg)).1).overall_status =
         OverallStatus.degraded ∧
     (determineOverallStatus
       (collectMCPServerStatus { warnings := w } (Except.error msg)).1).overall_status ≠
         OverallStatus.healthy) ∧
    ((collectMCPServerStatus { warnings := w } (Except.ok [])).1.healthy_servers = 0 ∧
     (collectMCPServerStatus { warnings := w } (Except.ok [])).1.failed_servers = 0 ∧
     (collectMCPServerStatus { warnings := w } (Except.ok [])).1.health_score = 0 ∧
     (determineOverallStatus
       (collectMCPServerStatus { warnings := w } (Except.ok [])).1).overall_status =
         OverallStatus.degraded ∧
     (determineOverallStatus
       (collectMCPServerStatus { warnings := w } (Except.ok [])).1).overall_status ≠
         OverallStatus.healthy) := by
  exact ⟨⟨rfl, rfl, rfl, rfl, fun h => OverallStatus.noConfusion h⟩,
         ⟨rfl, rfl, rfl, rfl, fun h => OverallStatus.noConfusion h⟩⟩

/-- C4 counterexample: with a report whose markdown renders fine and a
filesystem in which only the JSON write fails, the markdown and
summary artifacts are never attempted and the invocation reports
failure, refuting the partial-failure-tolerance claim. -/
theorem artifactPersistence_counterexample :
    ¬ partialFailureTolerant envJsonWriteFails sampleResults := by
  unfold partialFailureTolerant
  decide

/-- C4 as amended: report emission is fail-fast, not partial-failure
tolerant — emission succeeds exactly when every write and copy
succeeds, and the first failing write aborts the sequence, so the
artifacts after it are not attempted and the invocation reports
failure. -/
theorem artifactPersistence_amended (env : WriteEnv) (r : Results)
    (hmd : markdownRenderable r = true) :
    (resultFailed (generateReports env r) = false ↔
      env.writeJsonOk = true ∧ env.writeMdOk = true ∧ env.writeSummaryOk = true ∧
      env.copyJsonOk = true ∧ env.copyMdOk = true) ∧
    (env.writeJsonOk = false →
      (generateReports env r).attempted = [Artifact.jsonReport] ∧
      resultFailed (generateReports env r) = true) ∧
    (env.writeJsonOk = true → env.writeMdOk = false →
      (generateReports env r).attempted = [Artifact.jsonReport, Artifact.mdReport] ∧
      resultFailed (generateReports env r) = true) := by
  cases hmm : r.mcp_servers with
  | loadError msg => simp [markdownRenderable, hmm] at hmd
  | results entries =>
      cases hp : r.performance with
      | none => simp [markdownRenderable, hmm, hp] at hmd
      | some rating =>
          obtain ⟨wj, wm, ws, cj, cm⟩ := env
          cases wj <;> cases wm <;> cases ws <;> cases cj <;> cases cm <;>
            simp [generateReports, generateMarkdownReport,
              renderMarkdownServerSection, renderMarkdownPerformanceSection,
              hmm, hp, resultFailed, Bind.bind, Except.bind, Pure.pure, Except.pure]

/-- Witness for the amended C4: the fail-fast behaviour evaluated at
the concrete environment where the JSON write fails. -/
theorem artifactPersistence_amended_witness :
    (generateReports envJsonWriteFails sampleResults).attempted =
      [Artifact.jsonReport] ∧
    resultFailed (generateReports envJsonWriteFails sampleResults) = true :=
  (artifactPersistence_amended envJsonWriteFails sampleResults rfl).2.1 rfl

/-- C5: `generateRecommendations` evaluates its rules in a fixed order
including every matching rule: score below 50 puts the high-priority
health recommendation first, otherwise score below 80 puts the
medium-priority health recommendation first; a `needs_optimization`
performance rating (below 1000 ms excellent, below 3000 ms good, else
needs optimization) contributes the performance recommendation;
missing required workflows contribute a recommendation naming them;
and the low-priority maintenance recommendation is always appended
last, so the list is never empty. -/
theorem recommendations_rules :
    (∀ ms, ms < 1000 → ratePerformance ms = PerfRating.excellent) ∧
    (∀ ms, ¬ ms < 1000 → ms < 3000 → ratePerformance ms = PerfRating.good) ∧
    (∀ ms, ¬ ms < 1000 → ¬ ms < 3000 →
      ratePerformance ms = PerfRating.needs_optimization) ∧
    (∀ score perf wfs, score < 50 →
      (generateRecommendations score perf wfs).head? = some highHealthRec) ∧
    (∀ score perf wfs, ¬ score < 50 → score < 80 →
      (generateRecommendations score perf wfs).head? = some mediumHealthRec) ∧
    (∀ score wfs, performanceRec ∈
      generateRecommendations score (some PerfRating.needs_optimization) wfs) ∧
    (∀ score perf l, 0 < (l.filter (fun p => !p.2)).length →
      workflowsRec ((l.filter (fun p => !p.2)).map Prod.fst) ∈
        generateRecommendations score perf (some l)) ∧
    (∀ score perf wfs,
      (generateRecommendations score perf wfs).getLast? = some maintenanceRec) ∧
    (∀ score perf wfs, 1 ≤ (generateRecommendations score perf wfs).length) := by
  refine ⟨?_, ?_, ?_, ?_, ?_, ?_, ?_, ?_, ?_⟩
  · intro ms h; simp [ratePerformance, h]
  · intro ms h1 h2; simp [ratePerformance, h1, h2]
  · intro ms h1 h2; simp [ratePerformance, h1, h2]
  · intro score perf wfs h
    rcases wfs with - | l <;> rcases perf with - | p <;>
      simp [generateRecommendations, h] <;> split_ifs <;> simp
  · intro score perf wfs h1 h2
    rcases wfs with - | l <;> rcases perf with - | p <;>
      simp [generateRecommendations, h1, h2] <;> split_ifs <;> simp
  · intro score wfs
    rcases wfs with - | l <;> simp [generateRecommendations] <;>
      split_ifs <;> simp
  · intro score perf l h
    rcases perf with - | p <;> simp [generateRecommendations, h] <;>
      split_ifs <;> simp
  · intro score perf wfs
    simp only [generateRecommendations]
    exact List.getLast?_concat _
  · intro score perf wfs
    simp [generateRecommendations]

/-- Witness for C5: the excellent rating and the high-priority health
rule applied at concrete inputs. -/
theorem recommendations_rules_witness :
    ratePerformance 500 = PerfRating.excellent ∧
    (generateRecommendations 30 none none).head? = some highHealthRec :=
  ⟨recommendations_rules.1 500 (by decide),
   recommendations_rules.2.2.2.1 30 none none (by decide)⟩

/-- C6 as the code behaves: when the registry load throws, the sweep
itself proceeds as a zero-services run (score 0, warning incremented,
status degraded), but the run does not survive to a produced report —
rendering the markdown artifact evaluates `server.config.command` on
the error-shaped component and throws a `TypeError`, so only the JSON
artifact is persisted and the invocation exits non-zero, contradicting
the claim that the run still produces its report. -/
theorem registryFailure_bug :
    (buildReport envRegistryFails).summary.total_servers = 0 ∧
    (buildReport envRegistryFails).summary.healthy_servers = 0 ∧
    (buildReport envRegistryFails).summary.failed_servers = 0 ∧
    (buildReport envRegistryFails).summary.health_score = 0 ∧
    (buildReport envRegistryFails).summary.warnings = 2 ∧
    (buildReport envRegistryFails).summary.overall_status = OverallStatus.degraded ∧
    (generateReports allWritesOk (buildReport envRegistryFails)).persisted =
      [Artifact.jsonReport] ∧
    resultFailed (generateReports allWritesOk (buildReport envRegistryFails)) = true ∧
    generateFullReport envRegistryFails =
      Except.error "TypeError: Cannot read properties of undefined (reading command)" ∧
    runCli envRegistryFails = 1 := by
  decide

/-- C7: the per-service probe is a poll-until-timeout check on
`http://localhost:PORT` followed by the health path (default
`/health`): it retries every `pollIntervalMs` until a success or until
the cumulative elapsed time exceeds `timeoutMs`, returning false
(never throwing) when no attempt succeeds; the aggregator invokes it
with `timeoutMs = 5000` and `pollIntervalMs = 500`. -/
theorem probe_pollUntilTimeout :
    (∀ port : Nat, buildHealthUrl port none =
      "http://localhost:" ++ toString port ++ "/health") ∧
    (∀ (port : Nat) (hp : String), hp ≠ "" →
      buildHealthUrl port (some hp) = "http://localhost:" ++ toString port ++ hp) ∧
    aggregatorTimeoutMs = 5000 ∧
    aggregatorPollIntervalMs = 500 ∧
    (∀ responds timeoutMs pollIntervalMs, (∀ t, responds t = false) →
      probeHealth responds timeoutMs pollIntervalMs = false) ∧
    (∀ responds timeoutMs pollIntervalMs, responds 0 = true →
      probeHealth responds timeoutMs pollIntervalMs = true) ∧
    aggregatorProbe (fun t => decide (2000 ≤ t)) = true ∧
    probeHealth (fun t => decide (2000 ≤ t)) 1000 500 = false := by
  refine ⟨fun _ => rfl, ?_, rfl, rfl, ?_, ?_, by decide, by decide⟩
  · intro port hp h; simp [buildHealthUrl, h]
  · intro responds timeoutMs pollIntervalMs h
    exact probeHealthGo_neverResponds responds h timeoutMs pollIntervalMs _ _
  · intro responds timeoutMs pollIntervalMs h
    simp [probeHealth, probeHealthGo, h]

/-- Witness for C7: the URL built for port 3001 with an explicit
health path, and a probe that never succeeds timing out to false. -/
theorem probe_pollUntilTimeout_witness :
    buildHealthUrl 3001 (some "/status") =
      "http://localhost:" ++ toString 3001 ++ "/status" ∧
    probeHealth (fun _ => false) 5000 500 = false :=
  ⟨probe_pollUntilTimeout.2.1 3001 "/status" (by decide),
   probe_pollUntilTimeout.2.2.2.2.1 (fun _ => false) 5000 500 (fun _ => rfl)⟩

/-- C8: the no-argument CLI invocation exits 0 exactly when report
generation resolved and non-zero exactly when it threw; an unhealthy
fleet still exits 0 when every artifact write succeeds, shown both in
general and on a concrete run classified critical. -/
theorem cli_exit_code (env : RunEnv) :
    (runCli env = 0 ↔ exceptOk (generateFullReport env) = true) ∧
    (runCli env = 1 ↔ exceptOk (generateFullReport env) = false) ∧
    (env.mkdirOk = true → env.writes = allWritesOk →
      markdownRenderable (buildReport env) = true → runCli env = 0) ∧
    ((buildReport envCritical).summary.overall_status = OverallStatus.critical ∧
      runCli envCritical = 0) := by
  refine ⟨?_, ?_, ?_, by decide, by decide⟩
  · cases h : generateFullReport env <;> simp [runCli, exceptOk, h]
  · cases h : generateFullReport env <;> simp [runCli, exceptOk, h]
  · intro h1 h2 h3
    cases hmm : (buildReport env).mcp_servers with
    | loadError msg => simp [markdownRenderable, hmm] at h3
    | results entries =>
        cases hp : (buildReport env).performance with
        | none => simp [markdownRenderable, hmm, hp] at h3
        | some rating =>
            simp [runCli, generateFullReport, h1, h2, generateReports,
              allWritesOk, generateMarkdownReport, renderMarkdownServerSection,
              renderMarkdownPerformanceSection, hmm, hp,
              Bind.bind, Except.bind, Pure.pure, Except.pure]

/-- Witness for C8: the exit-code characterization applied to the
concrete critical-fleet run, which exits 0. -/
theorem cli_exit_code_witness : runCli envCritical = 0 :=
  (cli_exit_code envCritical).2.2.1 rfl rfl (by decide)

/-- C9: the terse summary and the structured JSON artifact are derived
read-only from the same finalized results record — the summary text is
exactly the summary template rendered at the status and score (and
remaining counters) carried by the JSON document, so the two
representations cannot diverge in those numbers. -/
theorem summaryReport_consistency (now : String) (r : Results) :
    generateSummaryReport now r =
      renderSummary now
        { status := (jsonDocument r).summary.overall_status,
          score := (jsonDocument r).summary.health_score,
          healthy := (jsonDocument r).summary.healthy_servers,
          total := (jsonDocument r).summary.total_servers,
          warningCount := (jsonDocument r).summary.warnings,
          recommendationCount := (jsonDocument r).recommendations.length } ∧
    (jsonDocument r).summary.overall_status = r.summary.overall_status ∧
    (jsonDocument r).summary.health_score = r.summary.health_score :=
  ⟨rfl, rfl, rfl⟩

end MCPStatus
